import Mathlib

/-!
Verification of the specification of Kimera-VIO's ThreadsafeQueue
(src/include/kimera-vio/utils/ThreadsafeQueue.h) against a shallow
embedding of the code.

Embedding conventions:
* The queue state is the record of the C++ data members: the identifier
  string, the internal std::queue (a Lean List, head = front of the
  queue), and the atomic shutdown flag (a Bool).
* Each member function is a pure Lean function from the pre-state to its
  return value(s) together with the post-state.  Out-parameter forms
  return the value written to the out parameter as an Option (none when
  the out parameter is left untouched); shared_ptr-returning forms
  return an Option (none models a null shared_ptr).
* A call of popBlocking is modelled at the moment its wait predicate
  (!data_queue_.empty() || shutdown_) holds; when the predicate is false
  the call blocks, which the embedding renders as the result none.
* batchPop's CHECK(output_queue->empty()) is a fatal glog check that
  aborts the process; the embedding renders the abort as the result
  none, and a normal return as some.
-/

namespace VIO

/-- State of a ThreadsafeQueue<T>: the data members queue_id_,
data_queue_ (head of the list = front of the std::queue) and the
shutdown_ flag. -/
structure ThreadsafeQueue (T : Type) where
  queue_id_ : String
  data_queue_ : List T
  shutdown_ : Bool
deriving Repr

namespace ThreadsafeQueue

/-- Constructor ThreadsafeQueue(const std::string& queue_id): empty
internal queue, shutdown_ = false. -/
def new (T : Type) (queue_id : String) : ThreadsafeQueue T :=
  { queue_id_ := queue_id, data_queue_ := [], shutdown_ := false }

/-- bool push(T new_value): if shutdown_ return false; otherwise append
at the tail and return true (the VLOG is observability only). -/
def push {T : Type} (q : ThreadsafeQueue T) (new_value : T) :
    Bool × ThreadsafeQueue T :=
  if q.shutdown_ then (false, q)
  else (true, { q with data_queue_ := q.data_queue_ ++ [new_value] })

/-- bool popBlocking(T& value): waits for the predicate
(!empty || shutdown), then returns false if shutdown_ (leaving the queue
untouched), else moves the front into value, pops, returns true.
Result none means the call blocks (predicate false); otherwise
some (return value, value written to the out parameter, post-state). -/
def popBlocking {T : Type} (q : ThreadsafeQueue T) :
    Option (Bool × Option T × ThreadsafeQueue T) :=
  if q.shutdown_ then some (false, none, q)
  else
    match q.data_queue_ with
    | [] => none
    | v :: rest => some (true, some v, { q with data_queue_ := rest })

/-- std::shared_ptr<T> popBlocking(): same wait predicate; returns a
null shared_ptr (none) on shutdown, else the front element.  Outer none
means the call blocks. -/
def popBlockingPtr {T : Type} (q : ThreadsafeQueue T) :
    Option (Option T × ThreadsafeQueue T) :=
  if q.shutdown_ then some (none, q)
  else
    match q.data_queue_ with
    | [] => none
    | v :: rest => some (some v, { q with data_queue_ := rest })

/-- bool pop(T& value): single non-blocking check.  Returns
(return value, value written to the out parameter, post-state). -/
def pop {T : Type} (q : ThreadsafeQueue T) :
    Bool × Option T × ThreadsafeQueue T :=
  if q.shutdown_ then (false, none, q)
  else
    match q.data_queue_ with
    | [] => (false, none, q)
    | v :: rest => (true, some v, { q with data_queue_ := rest })

/-- std::shared_ptr<T> pop(): single non-blocking check; null shared_ptr
(none) on shutdown or empty. -/
def popPtr {T : Type} (q : ThreadsafeQueue T) :
    Option T × ThreadsafeQueue T :=
  if q.shutdown_ then (none, q)
  else
    match q.data_queue_ with
    | [] => (none, q)
    | v :: rest => (some v, { q with data_queue_ := rest })

/-- bool batchPop(InternalQueue* output_queue): if shutdown_ return
false; then CHECK(output_queue->empty()) aborts (none) when the
destination is non-empty; else if the internal queue is empty return
false, otherwise swap the whole internal queue into the destination and
return true.  A normal return is some (return value, destination
contents after the call, post-state). -/
def batchPop {T : Type} (q : ThreadsafeQueue T) (output_queue : List T) :
    Option (Bool × List T × ThreadsafeQueue T) :=
  if q.shutdown_ then some (false, output_queue, q)
  else if output_queue.isEmpty = false then none
  else
    match q.data_queue_ with
    | [] => some (false, output_queue, q)
    | _ :: _ => some (true, q.data_queue_, { q with data_queue_ := [] })

/-- void shutdown(): sets shutdown_ to true (the notify_all has no
state effect in the embedding). -/
def shutdown {T : Type} (q : ThreadsafeQueue T) : ThreadsafeQueue T :=
  { q with shutdown_ := true }

/-- void resume(): sets shutdown_ to false. -/
def resume {T : Type} (q : ThreadsafeQueue T) : ThreadsafeQueue T :=
  { q with shutdown_ := false }

/-- bool empty() const: whether the internal queue is empty. -/
def empty {T : Type} (q : ThreadsafeQueue T) : Bool :=
  q.data_queue_.isEmpty

/-- Push a whole list of values in order, discarding the per-call return
values (producer loop). -/
def pushAll {T : Type} (q : ThreadsafeQueue T) : List T → ThreadsafeQueue T
  | [] => q
  | v :: vs => pushAll (push q v).2 vs

/-- Drain the queue with repeated non-blocking pop calls, collecting the
retrieved values in order; fuel bounds the number of calls. -/
def drainPop {T : Type} : Nat → ThreadsafeQueue T → List T
  | 0, _ => []
  | Nat.succ n, q =>
    match pop q with
    | (true, some v, q2) => v :: drainPop n q2
    | _ => []

/-- Drain the queue with repeated blocking popBlocking calls, collecting
the retrieved values in order; fuel bounds the number of calls. -/
def drainPopBlocking {T : Type} : Nat → ThreadsafeQueue T → List T
  | 0, _ => []
  | Nat.succ n, q =>
    match popBlocking q with
    | some (true, some v, q2) => v :: drainPopBlocking n q2
    | _ => []

end ThreadsafeQueue

namespace ThreadsafeNullQueue

/-- ThreadsafeNullQueue<T>::push(T): returns true, touches nothing. -/
def push {T : Type} (q : ThreadsafeQueue T) (_new_value : T) :
    Bool × ThreadsafeQueue T :=
  (true, q)

/-- ThreadsafeNullQueue<T>::popBlocking(T& value): returns true without
writing the out parameter and without blocking. -/
def popBlocking {T : Type} (q : ThreadsafeQueue T) :
    Bool × Option T × ThreadsafeQueue T :=
  (true, none, q)

/-- ThreadsafeNullQueue<T>::popBlocking(): returns a null shared_ptr. -/
def popBlockingPtr {T : Type} (q : ThreadsafeQueue T) :
    Option T × ThreadsafeQueue T :=
  (none, q)

/-- ThreadsafeNullQueue<T>::pop(T& value): returns true without writing
the out parameter. -/
def pop {T : Type} (q : ThreadsafeQueue T) :
    Bool × Option T × ThreadsafeQueue T :=
  (true, none, q)

/-- ThreadsafeNullQueue<T>::pop(): returns a null shared_ptr. -/
def popPtr {T : Type} (q : ThreadsafeQueue T) :
    Option T × ThreadsafeQueue T :=
  (none, q)

/-- Push a whole list of values through the null queue in order. -/
def pushAll {T : Type} (q : ThreadsafeQueue T) : List T → ThreadsafeQueue T
  | [] => q
  | v :: vs => pushAll (push q v).2 vs

end ThreadsafeNullQueue

/-! Helper lemmas shared by the claim theorems. -/

/-- Pushing a list of values onto an Active queue appends them, in
order, at the tail, and leaves the flag Active. -/
theorem pushAll_active {T : Type} (vs : List T) :
    ∀ q : ThreadsafeQueue T, q.shutdown_ = false →
      ThreadsafeQueue.pushAll q vs =
        { q with data_queue_ := q.data_queue_ ++ vs } := by
  induction vs with
  | nil => intro q _; simp [ThreadsafeQueue.pushAll]
  | cons v vs ih =>
    intro q h
    simp only [ThreadsafeQueue.pushAll, ThreadsafeQueue.push, h,
      Bool.false_eq_true, if_false]
    rw [ih ⟨q.queue_id_, q.data_queue_ ++ [v], false⟩ rfl]
    simp

/-- Draining an Active queue by repeated non-blocking pop, with as many
calls as stored elements, returns exactly the stored sequence. -/
theorem drainPop_active {T : Type} (l : List T) :
    ∀ q : ThreadsafeQueue T, q.shutdown_ = false → q.data_queue_ = l →
      ThreadsafeQueue.drainPop l.length q = l := by
  induction l with
  | nil => intro q _ _; rfl
  | cons v rest ih =>
    intro q h hl
    have hpop : ThreadsafeQueue.pop q =
        (true, some v, { q with data_queue_ := rest }) := by
      simp [ThreadsafeQueue.pop, h, hl]
    simp only [List.length_cons, ThreadsafeQueue.drainPop, hpop]
    rw [ih { q with data_queue_ := rest } h rfl]

/-- Draining an Active queue by repeated blocking pop, with as many
calls as stored elements, returns exactly the stored sequence. -/
theorem drainPopBlocking_active {T : Type} (l : List T) :
    ∀ q : ThreadsafeQueue T, q.shutdown_ = false → q.data_queue_ = l →
      ThreadsafeQueue.drainPopBlocking l.length q = l := by
  induction l with
  | nil => intro q _ _; rfl
  | cons v rest ih =>
    intro q h hl
    have hpop : ThreadsafeQueue.popBlocking q =
        some (true, some v, { q with data_queue_ := rest }) := by
      simp [ThreadsafeQueue.popBlocking, h, hl]
    simp only [List.length_cons, ThreadsafeQueue.drainPopBlocking, hpop]
    rw [ih { q with data_queue_ := rest } h rfl]

/-- A ThreadsafeNullQueue push sequence never changes the state. -/
theorem nullPushAll_id {T : Type} (vs : List T) :
    ∀ q : ThreadsafeQueue T, ThreadsafeNullQueue.pushAll q vs = q := by
  induction vs with
  | nil => intro q; rfl
  | cons v vs ih => intro q; exact ih q

/-! The claim theorems. -/

/-- Claim C1: pushing v1..vn in order onto an Active (shutdown_ = false)
queue and then draining it, by repeated pop as well as by repeated
popBlocking, yields exactly v1..vn in the same order with no loss or
duplication. -/
theorem C1_fifo_push_drain {T : Type} (q : ThreadsafeQueue T) (vs : List T)
    (hA : q.shutdown_ = false) (hE : q.data_queue_ = []) :
    ThreadsafeQueue.drainPop vs.length (ThreadsafeQueue.pushAll q vs) = vs ∧
    ThreadsafeQueue.drainPopBlocking vs.length
      (ThreadsafeQueue.pushAll q vs) = vs := by
  have hp := pushAll_active vs q hA
  constructor
  · exact drainPop_active vs _ (by rw [hp]; exact hA) (by rw [hp]; simp [hE])
  · exact drainPopBlocking_active vs _ (by rw [hp]; exact hA)
      (by rw [hp]; simp [hE])

/-- Witness for C1 at the concrete push sequence [1, 2, 3]. -/
theorem C1_fifo_push_drain_witness :
    ThreadsafeQueue.drainPop 3
      (ThreadsafeQueue.pushAll
        (ThreadsafeQueue.new Nat "q") [1, 2, 3]) = [1, 2, 3] ∧
    ThreadsafeQueue.drainPopBlocking 3
      (ThreadsafeQueue.pushAll
        (ThreadsafeQueue.new Nat "q") [1, 2, 3]) = [1, 2, 3] :=
  C1_fifo_push_drain (ThreadsafeQueue.new Nat "q") [1, 2, 3] rfl rfl

/-- Claim C2, counterexample: the claim says the out-parameter bool form
of pop on a ThreadsafeNullQueue always reports no value (returns false),
but the code returns true. -/
theorem C2_null_pop_counterexample :
    ¬ ((ThreadsafeNullQueue.pop (ThreadsafeQueue.new Nat "null")).1 = false) := by
  decide

/-- Claim C2 as amended: on a ThreadsafeNullQueue, push always returns
true without storing, the shared_ptr forms of popBlocking and pop always
return null immediately, the out-parameter bool forms of popBlocking and
pop always return true immediately without writing the out parameter,
and empty always reports true after any prior sequence of pushes. -/
theorem C2_null_queue {T : Type} (q : ThreadsafeQueue T) (v : T)
    (queue_id : String) (vs : List T) :
    ThreadsafeNullQueue.push q v = (true, q) ∧
    ThreadsafeNullQueue.popBlocking q = (true, none, q) ∧
    ThreadsafeNullQueue.popBlockingPtr q = (none, q) ∧
    ThreadsafeNullQueue.pop q = (true, none, q) ∧
    ThreadsafeNullQueue.popPtr q = (none, q) ∧
    ThreadsafeQueue.empty
      (ThreadsafeNullQueue.pushAll
        (ThreadsafeQueue.new T queue_id) vs) = true := by
  refine ⟨rfl, rfl, rfl, rfl, rfl, ?_⟩
  rw [nullPushAll_id vs]
  rfl

/-- Claim C3: when popBlocking observes shutdown_ = true after its wait
predicate holds, both forms return failure (false / null) without
removing any element, even if the internal sequence is non-empty. -/
theorem C3_popBlocking_shutdown {T : Type} (q : ThreadsafeQueue T)
    (h : q.shutdown_ = true) :
    ThreadsafeQueue.popBlocking q = some (false, none, q) ∧
    ThreadsafeQueue.popBlockingPtr q = some (none, q) := by
  constructor
  · simp [ThreadsafeQueue.popBlocking, h]
  · simp [ThreadsafeQueue.popBlockingPtr, h]

/-- Witness for C3 on a shut-down queue that still holds an element. -/
theorem C3_popBlocking_shutdown_witness :
    ThreadsafeQueue.popBlocking
        (⟨"q", [7], true⟩ : ThreadsafeQueue Nat) =
      some (false, none, ⟨"q", [7], true⟩) ∧
    ThreadsafeQueue.popBlockingPtr
        (⟨"q", [7], true⟩ : ThreadsafeQueue Nat) =
      some (none, ⟨"q", [7], true⟩) :=
  C3_popBlocking_shutdown ⟨"q", [7], true⟩ rfl

/-- Claim C4: batchPop with an empty destination returns false without
draining when shutdown_ is true; returns false leaving the queue
unchanged when the internal sequence is empty; and otherwise moves the
entire internal sequence, in order, into the destination, leaves the
queue empty, and returns true, after which an immediately following
batchPop with an empty destination returns false. -/
theorem C4_batchPop_empty_dest {T : Type} (q : ThreadsafeQueue T) :
    (q.shutdown_ = true →
      ThreadsafeQueue.batchPop q [] = some (false, [], q)) ∧
    (q.shutdown_ = false → q.data_queue_ = [] →
      ThreadsafeQueue.batchPop q [] = some (false, [], q)) ∧
    (q.shutdown_ = false → q.data_queue_ ≠ [] →
      ThreadsafeQueue.batchPop q [] =
        some (true, q.data_queue_, { q with data_queue_ := [] }) ∧
      ThreadsafeQueue.batchPop
          ({ q with data_queue_ := [] } : ThreadsafeQueue T) [] =
        some (false, [], { q with data_queue_ := [] })) := by
  refine ⟨?_, ?_, ?_⟩
  · intro h; simp [ThreadsafeQueue.batchPop, h]
  · intro h1 h2; simp [ThreadsafeQueue.batchPop, h1, h2]
  · intro h1 h2
    cases hl : q.data_queue_ with
    | nil => exact absurd hl h2
    | cons a l =>
      constructor
      · simp [ThreadsafeQueue.batchPop, h1, hl]
      · simp [ThreadsafeQueue.batchPop, h1]

/-- Witness for C4 on a queue holding [1, 2, 3]: batchPop yields
destination [1, 2, 3] and empties the queue, and the immediately
following batchPop fails. -/
theorem C4_batchPop_empty_dest_witness :
    ThreadsafeQueue.batchPop
        (⟨"q", [1, 2, 3], false⟩ : ThreadsafeQueue Nat) [] =
      some (true, [1, 2, 3], ⟨"q", [], false⟩) ∧
    ThreadsafeQueue.batchPop
        (⟨"q", [], false⟩ : ThreadsafeQueue Nat) [] =
      some (false, [], ⟨"q", [], false⟩) :=
  (C4_batchPop_empty_dest ⟨"q", [1, 2, 3], false⟩).2.2 rfl (by decide)

/-- Claim C5: on a queue whose shutdown_ flag is true, push returns
false and leaves the stored sequence (and the whole state) unchanged. -/
theorem C5_push_shutdown {T : Type} (q : ThreadsafeQueue T) (v : T)
    (h : q.shutdown_ = true) :
    ThreadsafeQueue.push q v = (false, q) := by
  simp [ThreadsafeQueue.push, h]

/-- Witness for C5 at a concrete shut-down queue. -/
theorem C5_push_shutdown_witness :
    ThreadsafeQueue.push (⟨"q", [4], true⟩ : ThreadsafeQueue Nat) 9 =
      (false, ⟨"q", [4], true⟩) :=
  C5_push_shutdown ⟨"q", [4], true⟩ 9 rfl

/-- Claim C6: non-blocking pop (both forms) performs a single check and
never waits: failure when shutdown_ is true, failure when the sequence
is empty, and otherwise it removes the head, hands it to the caller and
reports success. -/
theorem C6_pop_nonblocking {T : Type} (q : ThreadsafeQueue T) :
    (q.shutdown_ = true →
      ThreadsafeQueue.pop q = (false, none, q) ∧
      ThreadsafeQueue.popPtr q = (none, q)) ∧
    (q.shutdown_ = false → q.data_queue_ = [] →
      ThreadsafeQueue.pop q = (false, none, q) ∧
      ThreadsafeQueue.popPtr q = (none, q)) ∧
    (∀ v rest, q.shutdown_ = false → q.data_queue_ = v :: rest →
      ThreadsafeQueue.pop q = (true, some v, { q with data_queue_ := rest }) ∧
      ThreadsafeQueue.popPtr q = (some v, { q with data_queue_ := rest })) := by
  refine ⟨?_, ?_, ?_⟩
  · intro h
    constructor
    · simp [ThreadsafeQueue.pop, h]
    · simp [ThreadsafeQueue.popPtr, h]
  · intro h1 h2
    constructor
    · simp [ThreadsafeQueue.pop, h1, h2]
    · simp [ThreadsafeQueue.popPtr, h1, h2]
  · intro v rest h1 h2
    constructor
    · simp [ThreadsafeQueue.pop, h1, h2]
    · simp [ThreadsafeQueue.popPtr, h1, h2]

/-- Witness for C6 on an Active queue holding [1, 2]: pop removes the
head 1 and reports success. -/
theorem C6_pop_nonblocking_witness :
    ThreadsafeQueue.pop (⟨"q", [1, 2], false⟩ : ThreadsafeQueue Nat) =
      (true, some 1, ⟨"q", [2], false⟩) ∧
    ThreadsafeQueue.popPtr (⟨"q", [1, 2], false⟩ : ThreadsafeQueue Nat) =
      (some 1, ⟨"q", [2], false⟩) :=
  (C6_pop_nonblocking ⟨"q", [1, 2], false⟩).2.2 1 [2] rfl rfl

/-- Claim C7: batchPop with a non-empty destination while the queue is
not shut down hits the fatal CHECK (modelled as the result none): it
aborts rather than draining, returning a value, or failing silently. -/
theorem C7_batchPop_contract_violation {T : Type} (q : ThreadsafeQueue T)
    (output_queue : List T) (h1 : q.shutdown_ = false)
    (h2 : output_queue ≠ []) :
    ThreadsafeQueue.batchPop q output_queue = none := by
  have : output_queue.isEmpty = false := by
    cases output_queue with
    | nil => exact absurd rfl h2
    | cons a l => rfl
  simp [ThreadsafeQueue.batchPop, h1, this]

/-- Witness for C7 with a concrete non-empty destination. -/
theorem C7_batchPop_contract_violation_witness :
    ThreadsafeQueue.batchPop
      (⟨"q", [1], false⟩ : ThreadsafeQueue Nat) [5] = none :=
  C7_batchPop_contract_violation ⟨"q", [1], false⟩ [5] rfl (by decide)

/-- Claim C8: after shutdown() followed by resume(), the queue is back
in the Active state: a push succeeds, enqueuing its value at the tail,
and a subsequent blocking pop returns a real value. -/
theorem C8_resume_reactivates {T : Type} (q : ThreadsafeQueue T) (v : T) :
    (ThreadsafeQueue.resume (ThreadsafeQueue.shutdown q)).shutdown_ = false ∧
    (ThreadsafeQueue.push
      (ThreadsafeQueue.resume (ThreadsafeQueue.shutdown q)) v).1 = true ∧
    (ThreadsafeQueue.push
      (ThreadsafeQueue.resume (ThreadsafeQueue.shutdown q)) v).2.data_queue_ =
      q.data_queue_ ++ [v] ∧
    ∃ w q2,
      ThreadsafeQueue.popBlocking
        (ThreadsafeQueue.push
          (ThreadsafeQueue.resume (ThreadsafeQueue.shutdown q)) v).2 =
      some (true, some w, q2) := by
  refine ⟨rfl, rfl, rfl, ?_⟩
  cases hl : q.data_queue_ with
  | nil =>
    refine ⟨v, ⟨q.queue_id_, [], false⟩, ?_⟩
    simp [ThreadsafeQueue.push, ThreadsafeQueue.resume,
      ThreadsafeQueue.shutdown, ThreadsafeQueue.popBlocking, hl]
  | cons a l =>
    refine ⟨a, ⟨q.queue_id_, l ++ [v], false⟩, ?_⟩
    simp [ThreadsafeQueue.push, ThreadsafeQueue.resume,
      ThreadsafeQueue.shutdown, ThreadsafeQueue.popBlocking, hl]

/-- Claim C9: shutdown() is idempotent: applying it twice yields exactly
the same state as applying it once. -/
theorem C9_shutdown_idempotent {T : Type} (q : ThreadsafeQueue T) :
    ThreadsafeQueue.shutdown (ThreadsafeQueue.shutdown q) =
      ThreadsafeQueue.shutdown q :=
  rfl

/-- Claim C10: shutdown() and resume() modify only the shutdown_ flag
and never touch the stored sequence, so values enqueued before a
shutdown are still present after a subsequent resume. -/
theorem C10_shutdown_resume_frame {T : Type} (q : ThreadsafeQueue T) :
    (ThreadsafeQueue.shutdown q).data_queue_ = q.data_queue_ ∧
    (ThreadsafeQueue.resume q).data_queue_ = q.data_queue_ ∧
    (ThreadsafeQueue.resume (ThreadsafeQueue.shutdown q)).data_queue_ =
      q.data_queue_ :=
  ⟨rfl, rfl, rfl⟩

end VIO
